import Mathlib

/-!
Verification development for the TORCS_AI python client
(`pyclient.py`, `driver.py`, `ai_driver.py`, `train_model.py`).

The code is shallowly embedded: python strings become `List Char`
(wrapped in `String` at the API boundary), python floats become `ℚ`
(all constants in the sources are short decimal literals and every
rounding decision proved here is far from a representation boundary),
python ints become `ℤ`/`ℕ`, and fallible operations return `Option`.
The session loops of `pyclient.py` and `ai_driver.py` become step
functions over explicit event types (received datagram / receive
timeout / send success or failure).
-/

set_option maxRecDepth 100000

namespace TorcsAI

/-! ## Character-list string primitives (python `str` operations) -/

/-- `beginsWith s pat` : does `s` start with `pat`? -/
def beginsWith : List Char → List Char → Bool
  | _, [] => true
  | [], _ :: _ => false
  | a :: as, b :: bs => a = b && beginsWith as bs

/-- Fuel-driven worker for `splitOnL`; `acc` holds the current chunk reversed. -/
def splitOnAux (sep : List Char) : ℕ → List Char → List Char → List (List Char)
  | 0, acc, _ => [acc.reverse]
  | _ + 1, acc, [] => [acc.reverse]
  | fuel + 1, acc, c :: rest =>
    if beginsWith (c :: rest) sep then
      acc.reverse :: splitOnAux sep fuel [] ((c :: rest).drop sep.length)
    else
      splitOnAux sep fuel (c :: acc) rest

/-- Python `s.split(sep)` for a non-empty separator `sep`. -/
def splitOnL (sep s : List Char) : List (List Char) :=
  if sep.isEmpty then [s] else splitOnAux sep (s.length + 1) [] s

/-- Python `s.split(sep)[1]`: the chunk after the first occurrence of `sep`
(and before its second occurrence); `none` when `sep` does not occur
(python raises `IndexError` there, which the callers turn into `None`). -/
def afterFirst (sep s : List Char) : Option (List Char) :=
  match splitOnL sep s with
  | _ :: x :: _ => some x
  | _ => none

/-- Python `s.split(')')[0]`: everything before the first `')'`
(the whole string when there is none). -/
def beforeClose (s : List Char) : List Char :=
  match splitOnL [')'] s with
  | x :: _ => x
  | [] => s

/-- Python `s.split()` (no argument): split on whitespace runs, dropping
empty chunks. -/
def splitWs (s : List Char) : List (List Char) :=
  (s.splitOnP Char.isWhitespace).filter (fun c => ¬ c.isEmpty)

/-- Python `pat in s` / `s.find(pat) >= 0`: substring occurrence test. -/
def hasSub (pat : List Char) : List Char → Bool
  | [] => pat.isEmpty
  | c :: rest => beginsWith (c :: rest) pat || hasSub pat rest

/-! ## Python `float(...)` on a token, over `ℚ` -/

/-- Decimal digit run to a natural number. -/
def digitsToNat (l : List Char) : ℕ :=
  l.foldl (fun n c => 10 * n + (c.toNat - 48)) 0

/-- Python `float(s)`: optional sign, decimal mantissa (at least one digit,
optionally with a decimal point), optional `e`/`E` exponent; surrounding
whitespace stripped; anything else fails.  (The special spellings
`inf`/`nan` carry no meaning in the wire format and are not modelled.) -/
def parseFloatQ (s : List Char) : Option ℚ :=
  let t := (s.dropWhile Char.isWhitespace).reverse.dropWhile Char.isWhitespace |>.reverse
  let (sgn, t1) : ℚ × List Char :=
    match t with
    | '-' :: r => (-1, r)
    | '+' :: r => (1, r)
    | _ => (1, t)
  let intPart := t1.takeWhile Char.isDigit
  let t2 := t1.dropWhile Char.isDigit
  let (fracPart, t3) : List Char × List Char :=
    match t2 with
    | '.' :: r => (r.takeWhile Char.isDigit, r.dropWhile Char.isDigit)
    | _ => ([], t2)
  if intPart.isEmpty ∧ fracPart.isEmpty then none
  else
    let mant : ℚ := (digitsToNat intPart : ℚ) +
      (digitsToNat fracPart : ℚ) / ((10 : ℚ) ^ fracPart.length)
    match t3 with
    | [] => some (sgn * mant)
    | e :: r =>
      if e = 'e' ∨ e = 'E' then
        let (esgn, r1) : ℤ × List Char :=
          match r with
          | '-' :: r2 => (-1, r2)
          | '+' :: r2 => (1, r2)
          | _ => (1, r)
        let expDigits := r1.takeWhile Char.isDigit
        let r2 := r1.dropWhile Char.isDigit
        if expDigits.isEmpty ∨ ¬ r2.isEmpty then none
        else some (sgn * mant * (10 : ℚ) ^ (esgn * (digitsToNat expDigits : ℤ)))
      else none

/-! ## Python `max`/`min` on two arguments (kernel-reducible) -/

/-- Python `max(a, b)` on floats: the first argument wins ties. -/
def pyMax (a b : ℚ) : ℚ := if b ≤ a then a else b

/-- Python `min(a, b)` on floats: the first argument wins ties. -/
def pyMin (a b : ℚ) : ℚ := if a ≤ b then a else b

/-- Python `max(a, b)` on ints. -/
def pyMaxZ (a b : ℤ) : ℤ := if b ≤ a then a else b

/-- Python `min(a, b)` on ints. -/
def pyMinZ (a b : ℤ) : ℤ := if a ≤ b then a else b

/-! ## Python float formatting with `:.3f` -/

/-- Floor of a rational as an integer (flooring division of numerator by
denominator). -/
def floorQ (q : ℚ) : ℤ := q.num.fdiv q.den

/-- Round a non-negative rational to the nearest integer, ties to even —
the rounding python's fixed-point float formatting performs. -/
def roundHalfEven (q : ℚ) : ℤ :=
  let f := floorQ q
  let r := q - (f : ℚ)
  if r < 1 / 2 then f
  else if 1 / 2 < r then f + 1
  else if f % 2 = 0 then f else f + 1

/-- Left-pad the fractional part to three digits. -/
def pad3 (n : ℕ) : String :=
  let s := toString n
  if s.length = 1 then "00" ++ s
  else if s.length = 2 then "0" ++ s
  else s

/-- Python `f"{q:.3f}"`: sign, integer part, `.`, three fractional digits. -/
def fmt3 (q : ℚ) : String :=
  let sign := if q < 0 then "-" else ""
  let n := (roundHalfEven ((if q < 0 then -q else q) * 1000)).toNat
  sign ++ toString (n / 1000) ++ "." ++ pad3 (n % 1000)

/-! ## `ai_driver.py` — control-command encoder

`AIDriver.format_control_command(steer, accel, gear)`:
steer is first multiplied by `steer_sensitivity` and `steer_lock`, then all
three fields are clamped, then the string is assembled.  `gear` arrives as a
python int from `get_control_outputs`/`adjust_gear`, so the `int(gear)`
conversion is the identity and the parameter is `ℤ` here. -/

/-- `self.steer_sensitivity = 0.7` (`ai_driver.py`). -/
def steer_sensitivity : ℚ := 7 / 10

/-- `self.steer_lock = 0.785398` (`ai_driver.py`). -/
def steer_lock : ℚ := 785398 / 1000000

/-- `AIDriver.format_control_command` from `ai_driver.py`. -/
def format_control_command (steer accel : ℚ) (gear : ℤ) : String :=
  let steer1 := steer * steer_sensitivity * steer_lock
  let steer2 := pyMax (-1) (pyMin 1 steer1)
  let accel2 := pyMax 0 (pyMin 1 accel)
  let gear2 := pyMaxZ 1 (pyMinZ 6 gear)
  "(steer " ++ fmt3 steer2 ++ ")(accel " ++ fmt3 accel2 ++ ")(gear " ++
    toString gear2 ++ ")"

/-! ## Rangefinder angle table (`Driver.init` / `AIDriver.init`) -/

/-- The 19-entry rangefinder angle table both `driver.py` and `ai_driver.py`
build in `init`: a zero-filled list, indices `0..4` and `18..14` filled at
15-degree spacing, indices `5..8` and `13..10` at 5-degree spacing. -/
def initAngles : List ℤ :=
  let a := List.replicate 19 (0 : ℤ)
  let a := (List.range 5).foldl
    (fun l i => (l.set i (-90 + 15 * (i : ℤ))).set (18 - i) (90 - 15 * (i : ℤ))) a
  let a := [5, 6, 7, 8].foldl
    (fun l i => (l.set i (-20 + 5 * ((i : ℤ) - 5))).set (18 - i) (20 - 5 * ((i : ℤ) - 5))) a
  a

/-! ## `ai_driver.py` — telemetry decoder -/

/-- The eight features `AIDriver.parse_sensor_data` packs into its numpy
array, in array order `[track, angle, speedX, speedY, speedZ, trackPos,
rpm, gear]`. -/
structure SensorFeatures where
  track : ℚ
  angle : ℚ
  speedX : ℚ
  speedY : ℚ
  speedZ : ℚ
  trackPos : ℚ
  rpm : ℚ
  gear : ℚ
deriving DecidableEq

/-- `buf_str.split('(key ')[1].split(')')[0]` — the raw text of one field. -/
def extractField (key : List Char) (buf : List Char) : Option (List Char) :=
  (afterFirst key buf).map beforeClose

/-- `float(buf_str.split('(key ')[1].split(')')[0])`. -/
def extractFloat (key : List Char) (buf : List Char) : Option ℚ :=
  (extractField key buf).bind parseFloatQ

/-- The gear clamp on ingestion: `gear = max(1, min(6, gear))`. -/
def normalizeGear (g : ℚ) : ℚ := pyMax 1 (pyMin 6 g)

/-- `AIDriver.parse_sensor_data` from `ai_driver.py`.  Every field is pulled
out by string surgery; `track` takes only the FIRST whitespace token of the
track group (`.split()[0]`); any failure (missing group, empty track group,
unparsable number) is caught by the surrounding `except` and the whole call
returns `None`. -/
def parse_sensor_data (buf : String) : Option SensorFeatures :=
  let s := buf.toList
  match extractFloat "(angle ".toList s with
  | none => none
  | some angle =>
    match (extractField "(track ".toList s).bind
        (fun chunk => (splitWs chunk).head?.bind parseFloatQ) with
    | none => none
    | some track =>
      match extractFloat "(speedX ".toList s with
      | none => none
      | some speedX =>
        match extractFloat "(speedY ".toList s with
        | none => none
        | some speedY =>
          match extractFloat "(speedZ ".toList s with
          | none => none
          | some speedZ =>
            match extractFloat "(trackPos ".toList s with
            | none => none
            | some trackPos =>
              match extractFloat "(rpm ".toList s with
              | none => none
              | some rpm =>
                match extractFloat "(gear ".toList s with
                | none => none
                | some gearRaw =>
                  some ⟨track, angle, speedX, speedY, speedZ, trackPos,
                        rpm, normalizeGear gearRaw⟩

/-! ## Protocol markers -/

/-- `"***identified***"` (checked with `in` / `.find(...) >= 0`). -/
def identifiedMarker : List Char := "***identified***".toList

/-- `"***shutdown***"`. -/
def shutdownMarker : List Char := "***shutdown***".toList

/-- `"***restart***"`. -/
def restartMarker : List Char := "***restart***".toList

/-! ## Session loops as step functions over explicit transport events -/

/-- Result of the `sock.sendto` call: success, or a raised `socket.error`. -/
inductive SendResult
  | ok
  | err
deriving DecidableEq

/-- What one identification-loop iteration observes: the init send raised
`socket.error`; or the send succeeded and the following receive raised
`socket.error` (timeout); or the send succeeded and a datagram arrived. -/
inductive IdentEvent
  | sendFailed
  | recvTimeout
  | received (s : String)

/-- Where the client is after one identification-loop iteration. -/
inductive IdentPhase
  | identifying
  | driving
  | exited
deriving DecidableEq

/-- One iteration of the identification loop of `pyclient.py`
(`while True:` block, lines 172–193): a failed send is caught, logged and
the loop continues (`continue`); a failed receive likewise; a received
datagram moves to the driving loop only when it contains
`***identified***`. -/
def pyclient_ident_step : IdentEvent → IdentPhase
  | .sendFailed => .identifying
  | .recvTimeout => .identifying
  | .received s =>
    if hasSub identifiedMarker s.toList then .driving else .identifying

/-- One iteration of the identification loop of `AIDriver.run`
(`ai_driver.py` lines 108–129): a failed send calls `sys.exit(-1)`; a
failed receive continues; identification succeeds on the marker. -/
def ai_ident_step : IdentEvent → IdentPhase
  | .sendFailed => .exited
  | .recvTimeout => .identifying
  | .received s =>
    if hasSub identifiedMarker s.toList then .driving else .identifying

/-- Why a driving loop ended. -/
inductive TerminationReason
  | serverShutdown
  | serverRestart
deriving DecidableEq

/-- What one driving-loop iteration observes: the receive raised
`socket.error`, or a datagram arrived (with the fate the transport has in
store for the reply send, should one be attempted). -/
inductive DriveEvent
  | recvFailed
  | received (s : String) (res : SendResult)

/-- Result of one `pyclient.py` driving-loop iteration: still driving
(with the updated step counter and the successfully delivered reply, if
any), or the loop broke with a termination reason. -/
inductive DriveOutcome
  | driving (currentStep : ℤ) (sent : Option String)
  | terminated (r : TerminationReason)
deriving DecidableEq

/-- One iteration of the driving loop of `pyclient.py` (lines 199–242).
`maxSteps` is `arguments.max_steps`, `drive` abstracts `d.drive` (the
`driver.Driver` policy, whose internals live in modules outside this
repository's sources), `currentStep` the counter.  Shutdown is checked
before restart; the counter is incremented on every non-marker datagram;
when it equals `maxSteps` the fixed string `(meta 1)` replaces the policy
reply; a send failure is caught and the loop continues. -/
def pyclient_drive_step (maxSteps : ℤ) (drive : String → String)
    (currentStep : ℤ) : DriveEvent → DriveOutcome
  | .recvFailed => .driving currentStep none
  | .received s res =>
    if hasSub shutdownMarker s.toList then .terminated .serverShutdown
    else if hasSub restartMarker s.toList then .terminated .serverRestart
    else
      let step1 := currentStep + 1
      let out := if step1 ≠ maxSteps then (if s ≠ "" then drive s else s)
        else "(meta 1)"
      if out ≠ "" then
        match res with
        | .ok => .driving step1 (some out)
        | .err => .driving step1 none
      else .driving step1 none

/-! ## `ai_driver.py` driving loop -/

/-- `AIDriver.adjust_gear`: on the first call it only records the RPM;
afterwards it shifts up when RPM is increasing above 7000, down when
decreasing below 3000, clamped to [1,6]; it returns the new gear and the
updated `self.prev_rpm`. -/
def adjust_gear (prevRpm : Option ℚ) (rpm : ℚ) (current_gear : ℤ) :
    ℤ × Option ℚ :=
  match prevRpm with
  | none => (current_gear, some rpm)
  | some p =>
    let new_gear :=
      if p < rpm ∧ 7000 < rpm then pyMinZ 6 (current_gear + 1)
      else if ¬ p < rpm ∧ rpm < 3000 then pyMaxZ 1 (current_gear - 1)
      else current_gear
    (new_gear, some rpm)

/-- What one `AIDriver.run` driving-loop iteration observes: a receive
timeout, or a datagram. -/
inductive AiEvent
  | timeout
  | data (s : String)

/-- Result of one `AIDriver.run` driving-loop iteration: still driving
(with the updated `prev_rpm` memory and the reply sent, if any), or the
loop broke. -/
inductive AiDriveOutcome
  | driving (prevRpm : Option ℚ) (sent : Option String)
  | terminated (r : TerminationReason)

/-- One iteration of the driving loop of `AIDriver.run` (`ai_driver.py`
lines 131–171).  `ctrl` abstracts `process_sensor_data` followed by
`get_control_outputs` — the scaler and the trained network are external
artifacts — returning `(steer, accel, gear)`.  Shutdown is checked before
restart; a datagram whose parse fails is skipped with nothing sent
(`if sensor_data is not None`); otherwise the gear is adjusted by RPM and
the formatted control command is sent. -/
def ai_drive_step (ctrl : SensorFeatures → ℚ × ℚ × ℤ) (prevRpm : Option ℚ) :
    AiEvent → AiDriveOutcome
  | .timeout => .driving prevRpm none
  | .data s =>
    if hasSub shutdownMarker s.toList then .terminated .serverShutdown
    else if hasSub restartMarker s.toList then .terminated .serverRestart
    else
      match parse_sensor_data s with
      | none => .driving prevRpm none
      | some f =>
        let c := ctrl f
        let gm := adjust_gear prevRpm f.rpm c.2.2
        .driving gm.2 (some (format_control_command c.1 c.2.1 gm.1))

/-- Run the `AIDriver.run` driving loop over a list of events; returns the
termination reason (`none` while still driving) and the list of replies
actually sent, in order. -/
def ai_drive_run (ctrl : SensorFeatures → ℚ × ℚ × ℤ) :
    Option ℚ → List AiEvent → Option TerminationReason × List String
  | _, [] => (none, [])
  | mem, e :: es =>
    match ai_drive_step ctrl mem e with
    | .driving mem1 sent =>
      let rest := ai_drive_run ctrl mem1 es
      (rest.1, sent.toList ++ rest.2)
    | .terminated r => (some r, [])

/-! ## `get_control_outputs` gear decision (`ai_driver.py` / `train_model.py`)

`DriverNN` ends in `nn.Linear(64, 7)` and `forward` returns
`cat [tanh(out[:, :2]), softmax(out[:, 2:])]` — a row of width 7.
`get_control_outputs` reads that row: `outputs[0, :2]` as the continuous
pair and `outputs[0, 2:]` — exactly 5 entries — as gear probabilities,
decided by `torch.argmax(...) + 1`.  The row is abstracted as an arbitrary
`Fin 7 → ℚ` since the learned weights are external artifacts. -/

/-- Worker for `torch_argmax`: index `i` is the position of the head of the
remaining list, `bi`/`bv` the best index and value so far; a strictly
greater value replaces the best, so ties keep the first occurrence. -/
def argmaxAux : ℕ → ℕ → ℚ → List ℚ → ℕ
  | _, bi, _, [] => bi
  | i, bi, bv, x :: rest =>
    if bv < x then argmaxAux (i + 1) i x rest
    else argmaxAux (i + 1) bi bv rest

/-- `torch.argmax` on a one-dimensional tensor (first maximal index). -/
def torch_argmax : List ℚ → ℕ
  | [] => 0
  | x :: rest => argmaxAux 1 0 x rest

/-- `outputs[0, 2:]` — the 5 gear probabilities of the width-7 output row. -/
def gear_probs (out : Fin 7 → ℚ) : List ℚ :=
  [out 2, out 3, out 4, out 5, out 6]

/-- `AIDriver.get_control_outputs` on the network's output row:
`(steer, accel, gear)` with `gear = torch.argmax(gear_probs) + 1`. -/
def get_control_outputs (out : Fin 7 → ℚ) : ℚ × ℚ × ℤ :=
  (out 0, out 1, (torch_argmax (gear_probs out) : ℤ) + 1)

/-! ## Concrete telemetry datagrams used in the theorems -/

/-- A full telemetry datagram whose track group has 18 values. -/
def msg_track18 : String :=
  "(angle 0.0)(track 10.0 9.0 8.0 7.0 6.0 5.0 4.0 3.0 2.0 1.0 2.0 3.0 4.0 5.0 6.0 7.0 8.0 9.0)(speedX 10.0)(speedY 0.0)(speedZ -0.1)(trackPos 0.1)(rpm 5000.0)(gear 3)"

/-- A telemetry datagram whose track group is empty. -/
def msg_track_empty : String :=
  "(angle 0.0)(track )(speedX 10.0)(speedY 0.0)(speedZ -0.1)(trackPos 0.1)(rpm 5000.0)(gear 3)"

/-- A telemetry datagram with no track group at all. -/
def msg_missing_track : String :=
  "(angle 0.0)(speedX 10.0)(speedY 0.0)(speedZ -0.1)(trackPos 0.1)(rpm 5000.0)(gear 3)"

/-- A valid telemetry datagram with raw gear 0. -/
def msg_gear0 : String :=
  "(angle 0.0)(track 5.0 4.0 3.0)(speedX 10.0)(speedY 0.0)(speedZ -0.1)(trackPos 0.1)(rpm 5000.0)(gear 0)"

/-- A valid telemetry datagram with raw gear -1. -/
def msg_gearNeg1 : String :=
  "(angle 0.0)(track 5.0 4.0 3.0)(speedX 10.0)(speedY 0.0)(speedZ -0.1)(trackPos 0.1)(rpm 5000.0)(gear -1)"

/-- A valid telemetry datagram with raw gear 9. -/
def msg_gear9 : String :=
  "(angle 0.0)(track 5.0 4.0 3.0)(speedX 10.0)(speedY 0.0)(speedZ -0.1)(trackPos 0.1)(rpm 5000.0)(gear 9)"

/-- A malformed telemetry datagram (only an angle group). -/
def msg_malformed : String := "(angle 0.0)"

/-- A valid telemetry datagram. -/
def msg_valid : String :=
  "(angle 0.1)(track 5.0 4.0 3.0)(speedX 20.0)(speedY 0.0)(speedZ 0.0)(trackPos -0.2)(rpm 6000.0)(gear 3)"

/-! ## Clamp lemmas shared by the claim theorems -/

theorem pyClamp01_of_one_le {a : ℚ} (h : 1 ≤ a) : pyMax 0 (pyMin 1 a) = 1 := by
  unfold pyMax pyMin
  rw [if_pos h]
  norm_num

theorem pyClamp01_of_nonpos {a : ℚ} (h : a ≤ 0) : pyMax 0 (pyMin 1 a) = 0 := by
  unfold pyMax pyMin
  rw [if_neg (by linarith : ¬ (1 : ℚ) ≤ a), if_pos h]

theorem pyClampSteer_of_one_le {a : ℚ} (h : 1 ≤ a) : pyMax (-1) (pyMin 1 a) = 1 := by
  unfold pyMax pyMin
  rw [if_pos h]
  norm_num

theorem pyClampGear_of_six_le {g : ℤ} (h : 6 ≤ g) : pyMaxZ 1 (pyMinZ 6 g) = 6 := by
  unfold pyMaxZ pyMinZ
  split_ifs <;> omega

theorem pyClampGear_of_le_one {g : ℤ} (h : g ≤ 1) : pyMaxZ 1 (pyMinZ 6 g) = 1 := by
  unfold pyMaxZ pyMinZ
  split_ifs <;> omega

/-! ## Claim theorems -/

/-- Claim C2 (corrected), counterexample: encoding a control command with
`steer = 1.7` does NOT produce the same bytes as encoding the identical
command with `steer = 1.0` — the steer input is multiplied by
`steer_sensitivity * steer_lock` BEFORE the clamp, so 1.7 encodes as
`0.935` while 1.0 encodes as `0.550`. -/
theorem clamp_idem_cex :
    format_control_command (17 / 10) 1 3 ≠ format_control_command 1 1 3 := by
  rw [show format_control_command (17 / 10) 1 3 =
        "(steer 0.935)(accel 1.000)(gear 3)" by with_unfolding_all rfl,
      show format_control_command 1 1 3 =
        "(steer 0.550)(accel 1.000)(gear 3)" by with_unfolding_all rfl]
  decide

/-- Claim C2 (amended): clamping is the last step before formatting, so
encoding is idempotent under pre-clamping for `accel` (values ≥ 1 encode
like 1, values ≤ 0 like 0) and for `gear` (values ≥ 6 like 6, values ≤ 1
like 1); for `steer` the clamp is applied to the sensitivity- and
lock-scaled value, so pre-clamping the raw input changes the output, and
idempotence holds only at the scaled level: any two steer inputs whose
scaled values are both ≥ 1 encode identically. -/
theorem clamp_idem :
    (∀ (s : ℚ) (g : ℤ) (a a' : ℚ), 1 ≤ a → 1 ≤ a' →
      format_control_command s a g = format_control_command s a' g) ∧
    (∀ (s : ℚ) (g : ℤ) (a a' : ℚ), a ≤ 0 → a' ≤ 0 →
      format_control_command s a g = format_control_command s a' g) ∧
    (∀ (s a : ℚ) (g g' : ℤ), 6 ≤ g → 6 ≤ g' →
      format_control_command s a g = format_control_command s a g') ∧
    (∀ (s a : ℚ) (g g' : ℤ), g ≤ 1 → g' ≤ 1 →
      format_control_command s a g = format_control_command s a g') ∧
    (∀ (s s' a : ℚ) (g : ℤ),
      1 ≤ s * steer_sensitivity * steer_lock →
      1 ≤ s' * steer_sensitivity * steer_lock →
      format_control_command s a g = format_control_command s' a g) := by
  refine ⟨fun s g a a' ha ha' => ?_, fun s g a a' ha ha' => ?_,
    fun s a g g' hg hg' => ?_, fun s a g g' hg hg' => ?_,
    fun s s' a g hs hs' => ?_⟩ <;>
    simp only [format_control_command]
  · rw [pyClamp01_of_one_le ha, pyClamp01_of_one_le ha']
  · rw [pyClamp01_of_nonpos ha, pyClamp01_of_nonpos ha']
  · rw [pyClampGear_of_six_le hg, pyClampGear_of_six_le hg']
  · rw [pyClampGear_of_le_one hg, pyClampGear_of_le_one hg']
  · rw [pyClampSteer_of_one_le hs, pyClampSteer_of_one_le hs']

/-- Witness for `clamp_idem` at concrete inputs: accel 1.7 vs 1.0,
gear 9 vs 6, and steer 1.9 vs 2.0 (both scale past the clamp). -/
theorem clamp_idem_witness :
    format_control_command 0 (17 / 10) 3 = format_control_command 0 1 3 ∧
    format_control_command 0 1 9 = format_control_command 0 1 6 ∧
    format_control_command (19 / 10) 0 3 = format_control_command 2 0 3 :=
  ⟨clamp_idem.1 0 3 (17 / 10) 1 (by norm_num) (by norm_num),
   clamp_idem.2.2.1 0 1 9 6 (by norm_num) (by norm_num),
   clamp_idem.2.2.2.2 (19 / 10) 2 0 3
     (by norm_num [steer_sensitivity, steer_lock])
     (by norm_num [steer_sensitivity, steer_lock])⟩

/-- Claim C3 (corrected), counterexample: the control command with
steer 0.5, accel 1.0, gear 3 does NOT encode to
`"(steer 0.500)(accel 1.000)(gear 3)"`. -/
theorem encode_example_cex :
    format_control_command (1 / 2) 1 3 ≠ "(steer 0.500)(accel 1.000)(gear 3)" := by
  rw [show format_control_command (1 / 2) 1 3 =
        "(steer 0.275)(accel 1.000)(gear 3)" by with_unfolding_all rfl]
  decide

/-- Claim C3 (amended): the encoder scales steer by
`steer_sensitivity * steer_lock = 0.7 * 0.785398` before clamping and
formatting, so the command with steer 0.5, accel 1.0, gear 3 encodes
exactly as `"(steer 0.275)(accel 1.000)(gear 3)"` (3-decimal floats; the
encoder has no brake parameter and always emits exactly these three
groups). -/
theorem encode_example :
    format_control_command (1 / 2) 1 3 = "(steer 0.275)(accel 1.000)(gear 3)" := by
  with_unfolding_all rfl

/-- Claim C5 (confirmed): the rangefinder angle table built by
`Driver.init` / `AIDriver.init` is, for indices 0..18, exactly
`[-90,-75,-60,-45,-30,-20,-15,-10,-5,0,5,10,15,20,30,45,60,75,90]`. -/
theorem init_angle_table :
    initAngles =
      [-90, -75, -60, -45, -30, -20, -15, -10, -5, 0,
       5, 10, 15, 20, 30, 45, 60, 75, 90] := rfl

/-- Claim C4 (corrected), counterexample: a telemetry datagram whose track
group has only 18 values decodes to a snapshot (`isSome`), NOT to a decode
error — the parser never counts the track tokens. -/
theorem track_strictness_cex :
    (parse_sensor_data msg_track18).isSome = true := by
  with_unfolding_all rfl

/-- Claim C4 (amended): the decoder keeps only the FIRST whitespace token
of the track group as the single track feature (`.split()[0]`); a track
group with at least one numeric token decodes successfully whatever its
length (18 values below, first value 10.0), while an empty or missing
track group makes the whole parse fail with `None` — there is no
`MalformedField` value and no 19-entry array in the decoded snapshot. -/
theorem track_first_token :
    parse_sensor_data msg_track18 =
      some ⟨10, 0, 10, 0, -1 / 10, 1 / 10, 5000, 3⟩ ∧
    parse_sensor_data msg_track_empty = none ∧
    parse_sensor_data msg_missing_track = none := by
  refine ⟨?_, ?_, ?_⟩ <;> with_unfolding_all rfl

/-- Claim C6 (confirmed): decoding clamps the raw gear to [1,6]: raw gear
0, -1 and 9 decode to gear 1, 1 and 6 respectively, and `normalizeGear`
(the `max(1, min(6, gear))` step of `parse_sensor_data`) maps every value
into [1,6] — never a rejection. -/
theorem gear_normalization :
    (parse_sensor_data msg_gear0).map SensorFeatures.gear = some 1 ∧
    (parse_sensor_data msg_gearNeg1).map SensorFeatures.gear = some 1 ∧
    (parse_sensor_data msg_gear9).map SensorFeatures.gear = some 6 ∧
    ∀ g : ℚ, 1 ≤ normalizeGear g ∧ normalizeGear g ≤ 6 := by
  refine ⟨by with_unfolding_all rfl, by with_unfolding_all rfl,
    by with_unfolding_all rfl, fun g => ?_⟩
  unfold normalizeGear pyMax pyMin
  split_ifs <;> constructor <;> linarith

/-- Claim C7 (confirmed): in the driving loop — of `pyclient.py` and of
`AIDriver.run` alike — a received datagram containing the shutdown marker
terminates the session with reason `serverShutdown`, whatever else the
datagram contains (the shutdown test precedes the restart test), so a
datagram with both markers yields `serverShutdown`, not `serverRestart`. -/
theorem shutdown_over_restart :
    (∀ (maxSteps : ℤ) (drive : String → String) (st : ℤ) (s : String)
      (res : SendResult), hasSub shutdownMarker s.toList = true →
      pyclient_drive_step maxSteps drive st (.received s res) =
        .terminated .serverShutdown) ∧
    (∀ (ctrl : SensorFeatures → ℚ × ℚ × ℤ) (mem : Option ℚ) (s : String),
      hasSub shutdownMarker s.toList = true →
      ai_drive_step ctrl mem (.data s) = .terminated .serverShutdown) := by
  constructor
  · intro maxSteps drive st s res h
    simp only [String.toList] at h
    simp [pyclient_drive_step, h]
  · intro ctrl mem s h
    simp only [String.toList] at h
    simp [ai_drive_step, h]

/-- Witness for `shutdown_over_restart` on a datagram holding both
markers. -/
theorem shutdown_over_restart_witness :
    pyclient_drive_step 0 (fun s => s) 0
        (.received "***shutdown******restart***" .ok) =
      .terminated .serverShutdown ∧
    ai_drive_step (fun _ => (0, 0, 1)) none
        (.data "***shutdown******restart***") =
      .terminated .serverShutdown :=
  ⟨shutdown_over_restart.1 0 (fun s => s) 0 "***shutdown******restart***"
      .ok (by with_unfolding_all rfl),
   shutdown_over_restart.2 (fun _ => (0, 0, 1)) none
      "***shutdown******restart***" (by with_unfolding_all rfl)⟩

/-- Claim C8 (confirmed): in the `pyclient.py` driving loop with a step
limit `maxSteps > 0`, the tick on which the incremented counter reaches
`maxSteps` sends the fixed string `(meta 1)` instead of the policy reply
and the loop keeps driving — no local termination. -/
theorem step_limit_sends_meta (maxSteps : ℤ) (drive : String → String)
    (st : ℤ) (s : String)
    (h0 : 0 < maxSteps)
    (hS : hasSub shutdownMarker s.toList = false)
    (hR : hasSub restartMarker s.toList = false)
    (hstep : st + 1 = maxSteps) :
    pyclient_drive_step maxSteps drive st (.received s .ok) =
      .driving maxSteps (some "(meta 1)") := by
  subst hstep
  simp only [String.toList] at hS hR
  simp [pyclient_drive_step, hS, hR]

/-- Witness for `step_limit_sends_meta`: limit 3, counter at 2. -/
theorem step_limit_sends_meta_witness :
    pyclient_drive_step 3 (fun s => s) 2 (.received "(angle 0.0)" .ok) =
      .driving 3 (some "(meta 1)") :=
  step_limit_sends_meta 3 (fun s => s) 2 "(angle 0.0)" (by norm_num)
    (by with_unfolding_all rfl) (by with_unfolding_all rfl) (by norm_num)

/-- Claim C9 (confirmed): the `AIDriver.run` driving loop, fed one
malformed telemetry datagram (no markers, parse fails) followed by one
valid one (no markers, parse succeeds), sends exactly one control reply
and is still driving — a decode failure only skips its own tick. -/
theorem malformed_then_valid (ctrl : SensorFeatures → ℚ × ℚ × ℤ)
    (mem : Option ℚ) (m v : String)
    (hm : parse_sensor_data m = none)
    (hmS : hasSub shutdownMarker m.toList = false)
    (hmR : hasSub restartMarker m.toList = false)
    (hvS : hasSub shutdownMarker v.toList = false)
    (hvR : hasSub restartMarker v.toList = false)
    (hv : (parse_sensor_data v).isSome = true) :
    (ai_drive_run ctrl mem [.data m, .data v]).1 = none ∧
    (ai_drive_run ctrl mem [.data m, .data v]).2.length = 1 := by
  obtain ⟨f, hf⟩ := Option.isSome_iff_exists.mp hv
  simp only [String.toList] at hmS hmR hvS hvR
  constructor <;>
    simp [ai_drive_run, ai_drive_step, hm, hf, hmS, hmR, hvS, hvR]

/-- Witness for `malformed_then_valid` at concrete datagrams. -/
theorem malformed_then_valid_witness :
    (ai_drive_run (fun _ => (0, 0, 1)) none
        [.data msg_malformed, .data msg_valid]).1 = none ∧
    (ai_drive_run (fun _ => (0, 0, 1)) none
        [.data msg_malformed, .data msg_valid]).2.length = 1 :=
  malformed_then_valid (fun _ => (0, 0, 1)) none msg_malformed msg_valid
    (by with_unfolding_all rfl) (by with_unfolding_all rfl)
    (by with_unfolding_all rfl) (by with_unfolding_all rfl)
    (by with_unfolding_all rfl) (by with_unfolding_all rfl)

/-- Claim C1 (corrected), counterexample: a socket-level send error is NOT
fatal in `pyclient.py` — the identification loop stays identifying
(the send is retried on the next iteration, not the exit taken), and a
driving-loop send error leaves the session driving with the step counter
advanced, not terminated. -/
theorem send_error_fatal_cex :
    pyclient_ident_step IdentEvent.sendFailed = IdentPhase.identifying ∧
    IdentPhase.identifying ≠ IdentPhase.exited ∧
    pyclient_drive_step 1 (fun s => s) 5 (.received "(angle 0.0)" .err) =
      .driving 6 none ∧
    DriveOutcome.driving 6 none ≠ .terminated .serverShutdown ∧
    DriveOutcome.driving 6 none ≠ .terminated .serverRestart :=
  ⟨rfl, by decide, by with_unfolding_all rfl, by decide, by decide⟩

/-- Claim C1 (amended): in `pyclient.py` a socket-level send error is
never fatal: the identification loop catches it and retries, and a
driving-loop send error on any non-marker datagram is caught, nothing is
delivered, and the loop continues in the driving state with the counter
advanced; only `ai_driver.py`'s identification send exits the process on
a send error. -/
theorem send_error_not_fatal :
    pyclient_ident_step IdentEvent.sendFailed = IdentPhase.identifying ∧
    ai_ident_step IdentEvent.sendFailed = IdentPhase.exited ∧
    ∀ (maxSteps : ℤ) (drive : String → String) (st : ℤ) (s : String),
      hasSub shutdownMarker s.toList = false →
      hasSub restartMarker s.toList = false →
      pyclient_drive_step maxSteps drive st (.received s .err) =
        .driving (st + 1) none := by
  refine ⟨rfl, rfl, fun maxSteps drive st s hS hR => ?_⟩
  simp only [String.toList] at hS hR
  simp only [pyclient_drive_step, String.toList, hS, hR, Bool.false_eq_true,
    if_false]
  split_ifs <;> rfl

/-- Witness for `send_error_not_fatal` at a concrete datagram. -/
theorem send_error_not_fatal_witness :
    pyclient_drive_step 7 (fun s => s) 0 (.received "(angle 0.0)" .err) =
      .driving 1 none :=
  send_error_not_fatal.2.2 7 (fun s => s) 0 "(angle 0.0)"
    (by with_unfolding_all rfl) (by with_unfolding_all rfl)

/-- Bound for `argmaxAux`: starting at position `i` with a best index
below `i`, the returned index stays below `i` plus the remaining length. -/
theorem argmaxAux_lt (l : List ℚ) : ∀ (i bi : ℕ) (bv : ℚ), bi < i →
    argmaxAux i bi bv l < i + l.length := by
  induction l with
  | nil =>
    intro i bi bv h
    simpa [argmaxAux] using h
  | cons x rest ih =>
    intro i bi bv h
    simp only [argmaxAux, List.length_cons]
    split
    · have h1 := ih (i + 1) i x (by omega)
      omega
    · have h1 := ih (i + 1) bi bv (by omega)
      omega

/-- Claim C10 (confirmed): `get_control_outputs` decides the raw gear as
the argmax of exactly 5 gear probabilities (the width-7 network row minus
its 2 continuous outputs) plus 1, so the decided gear is always in [1,5]
and gear 6 is reachable only through the later `adjust_gear` upshift. -/
theorem raw_gear_in_one_to_five (out : Fin 7 → ℚ) :
    (gear_probs out).length = 5 ∧
    1 ≤ (get_control_outputs out).2.2 ∧ (get_control_outputs out).2.2 ≤ 5 := by
  refine ⟨rfl, ?_, ?_⟩
  · simp only [get_control_outputs]
    omega
  · have h := argmaxAux_lt [out 3, out 4, out 5, out 6] 1 0 (out 2)
      Nat.zero_lt_one
    simp only [List.length_cons, List.length_nil] at h
    simp only [get_control_outputs, torch_argmax, gear_probs]
    omega

end TorcsAI
